import Mathlib

/-!
Verification development for the ht-mcp session/tunnel orchestration layer.

Shallow embedding of the Rust sources:
  * `src/src/ht_integration/session_manager.rs` — session registry, session actor loop
  * `src/src/tunnel/cloudflare.rs`             — tunnel subprocess URL extraction
  * `src/src/tunnel/manager.rs`                — tunnel supervisor
  * `src/src/mcp/types.rs`                     — argument/result shapes

Async channels, timeouts and subprocess behaviour are modelled by explicit
oracles (outcome parameters) and by finite event traces; `HashMap` state is
modelled as an association list with unique keys.
-/

namespace HtMcp

/-- JSON values, modelling `serde_json::Value` (only the constructors the
result shapes use). Objects are ordered field lists, in the order produced
at each construction site in the source. -/
inductive Json where
  | null
  | bool (b : Bool)
  | str (s : String)
  | num (n : Nat)
  | arr (elems : List Json)
  | obj (fields : List (String × Json))

/-- Modelled from the spec: the error enum `HtMcpError` lives in `src/error.rs`,
which is not among the provided sources; spec §7 fixes exactly two kinds,
`SessionNotFound(id)` and `Internal(message)`, matching every construction
site in the provided sources. -/
inductive HtMcpError where
  | SessionNotFound (id : String)
  | Internal (msg : String)
deriving DecidableEq

/-- Parsed key event, modelling the external `ht_core::command::InputSeq`.
The external parser is opaque to this crate, so the event is modelled as a
tag carrying the key it was parsed from. -/
structure InputSeq where
  key : String
deriving DecidableEq

/-- Modelled from the spec: `ht_core::api::stdio::parse_key` is an external
collaborator (spec §6(c): a key-parsing function mapping a human-readable key
name/text to the input-event representation); modelled as injective tagging. -/
def parse_key (k : String) : InputSeq := ⟨k⟩

/-- `SessionCommand` from session_manager.rs. The `oneshot` reply channel of
`Snapshot` is modelled separately by a `ReplyOutcome` oracle at the caller. -/
inductive SessionCommand where
  | Input (seqs : List InputSeq)
  | Snapshot
  | Resize (cols rows : Nat)
deriving DecidableEq

/-- `SessionInfo` from session_manager.rs. The `command_tx` channel handle is
represented implicitly: enqueues appear on the effect trace of each operation,
and dropping the handle appears as the `cmdClosed` actor event. -/
structure SessionInfo where
  id : String
  internal_id : Nat
  created_at : Nat
  web_server_url : Option String
  tunnel_url : Option String
  is_alive : Bool
  command : List String
deriving DecidableEq

/-- The registry's `sessions: HashMap<String, SessionInfo>`, as an association
list whose keys are unique (a `HashMap` invariant). -/
abbrev Registry := List (String × SessionInfo)

/-- `HashMap::get` on the sessions map. -/
def lookupSession : Registry → String → Option SessionInfo
  | [], _ => none
  | (k, v) :: rest, sid => if k = sid then some v else lookupSession rest sid

/-- `HashMap::remove` on the sessions map: drops the (unique) entry with the
given key, leaving the map unchanged when the key is absent. -/
def removeSession : Registry → String → Registry
  | [], _ => []
  | (k, v) :: rest, sid => if k = sid then rest else (k, v) :: removeSession rest sid

/-- `HashMap::insert` on the sessions map (replaces any existing entry). -/
def insertSession (reg : Registry) (sid : String) (info : SessionInfo) : Registry :=
  (sid, info) :: removeSession reg sid

/-- Observable side effects of a registry operation: messages enqueued on a
session's command queue, and timed sleeps. -/
inductive Effect where
  | enqueue (sessionId : String) (cmd : SessionCommand)
  | sleep (ms : Nat)
deriving DecidableEq

/-- Outcome oracle for awaiting a `Snapshot` reply on its oneshot channel. -/
inductive ReplyOutcome where
  | value (text : String)
  | dropped
  | timeout
deriving DecidableEq

/-- The fixed snapshot reply deadline (`Duration::from_secs(5)`). -/
def snapshot_timeout_secs : Nat := 5

/-- The fixed settle delay of `execute_command` (`Duration::from_millis(1000)`). -/
def settle_delay_ms : Nat := 1000

/-- `SessionManager::send_keys`. `sendOk` is the oracle for whether the
`command_tx.send` succeeds (the channel is still open); on failure the message
is not enqueued. The source never mutates the sessions map here, so the
registry is returned unchanged. -/
def send_keys (reg : Registry) (sessionId : String) (keys : List String)
    (sendOk : Bool) : Except HtMcpError Json × Registry × List Effect :=
  match lookupSession reg sessionId with
  | none => (.error (.SessionNotFound sessionId), reg, [])
  | some _ =>
    let input_seqs := keys.map parse_key
    if sendOk then
      (.ok (.obj [("success", .bool true),
                  ("message", .str ("Keys sent successfully to session " ++ sessionId)),
                  ("sessionId", .str sessionId),
                  ("keys", .arr (keys.map .str))]),
       reg, [.enqueue sessionId (.Input input_seqs)])
    else
      (.error (.Internal "Failed to send keys"), reg, [])

/-- `SessionManager::take_snapshot`. `sendOk` is the oracle for the command
channel send; `reply` is the oracle for the awaited oneshot reply under the
5-second deadline. The registry is never mutated. -/
def take_snapshot (reg : Registry) (sessionId : String) (sendOk : Bool)
    (reply : ReplyOutcome) : Except HtMcpError Json × Registry × List Effect :=
  match lookupSession reg sessionId with
  | none => (.error (.SessionNotFound sessionId), reg, [])
  | some _ =>
    if sendOk then
      match reply with
      | .timeout =>
        (.error (.Internal "Snapshot request timed out"), reg,
         [.enqueue sessionId .Snapshot])
      | .dropped =>
        (.error (.Internal "Failed to receive snapshot"), reg,
         [.enqueue sessionId .Snapshot])
      | .value text =>
        (.ok (.obj [("sessionId", .str sessionId), ("snapshot", .str text)]),
         reg, [.enqueue sessionId .Snapshot])
    else
      (.error (.Internal "Failed to send snapshot command"), reg, [])

/-- Helper for `jsonIndex`: first field with the given name, else `null`. -/
def jsonIndexFields : List (String × Json) → String → Json
  | [], _ => .null
  | (k, v) :: rest, key => if k = key then v else jsonIndexFields rest key

/-- Field access `value["key"]` on a JSON object (`serde_json` returns `Null`
for a missing key or a non-object). -/
def jsonIndex : Json → String → Json
  | .obj fields, key => jsonIndexFields fields key
  | _, _ => .null

/-- `SessionManager::execute_command`: send the command text as one key entry,
send `"Enter"`, sleep the fixed settle delay, then take a snapshot; the first
failing sub-operation aborts with its error. `sendOk1`/`sendOk2`/`sendOk3` and
`reply` are the channel oracles of the three sub-operations in order. -/
def execute_command (reg : Registry) (sessionId command : String)
    (sendOk1 sendOk2 sendOk3 : Bool) (reply : ReplyOutcome) :
    Except HtMcpError Json × Registry × List Effect :=
  match send_keys reg sessionId [command] sendOk1 with
  | (.error e, reg1, t1) => (.error e, reg1, t1)
  | (.ok _, reg1, t1) =>
    match send_keys reg1 sessionId ["Enter"] sendOk2 with
    | (.error e, reg2, t2) => (.error e, reg2, t1 ++ t2)
    | (.ok _, reg2, t2) =>
      let t3 : List Effect := [.sleep settle_delay_ms]
      match take_snapshot reg2 sessionId sendOk3 reply with
      | (.error e, reg3, t4) => (.error e, reg3, t1 ++ t2 ++ t3 ++ t4)
      | (.ok snap, reg3, t4) =>
        (.ok (.obj [("command", .str command),
                    ("sessionId", .str sessionId),
                    ("output", jsonIndex snap "snapshot")]),
         reg3, t1 ++ t2 ++ t3 ++ t4)

/-- `SessionManager::close_session`: removes the entry (failing with
`SessionNotFound` when absent, leaving the map unchanged) and drops the
registry's `command_tx` handle, which closes the command queue. -/
def close_session (reg : Registry) (sessionId : String) :
    Except HtMcpError Json × Registry :=
  match lookupSession reg sessionId with
  | none => (.error (.SessionNotFound sessionId), reg)
  | some _ =>
    (.ok (.obj [("success", .bool true),
                ("message", .str ("Session " ++ sessionId ++ " closed successfully"))]),
     removeSession reg sessionId)

/-- Sample registry entry used by the concrete witnesses below. -/
def demoSession (sid : String) (n : Nat) : SessionInfo :=
  { id := sid, internal_id := n, created_at := 0, web_server_url := none,
    tunnel_url := none, is_alive := true, command := ["bash"] }

/-! ### Session actor event loop

Embedding of the `tokio::spawn`-ed loop in `create_session`
(session_manager.rs lines 129–187). The `tokio::select!` over the three
channels is modelled by an event trace: each loop iteration consumes one
ready event; which ready event is chosen is non-deterministic in the source,
so theorems quantify over traces. -/

/-- Terminal state, modelling the external `ht_core::session::Session`
collaborator at its spec §6 interface (`applyOutput`, `resize`, `getText`,
`subscribe`, cursor-key-mode query). Rendering is abstracted as text
accumulation; no claim depends on rendering semantics. -/
structure TermState where
  text : String
  cols : Nat
  rows : Nat
  cursorKeyAppMode : Bool
  subscribers : Nat
deriving DecidableEq

/-- `session.output(...)` — feed decoded process output into terminal state. -/
def TermState.output (s : TermState) (data : String) : TermState :=
  { s with text := s.text ++ data }

/-- `session.resize(cols, rows)`. -/
def TermState.resize (s : TermState) (cols rows : Nat) : TermState :=
  { s with cols := cols, rows := rows }

/-- `Session::new(cols, rows)`. -/
def TermState.new (cols rows : Nat) : TermState :=
  { text := "", cols := cols, rows := rows, cursorKeyAppMode := false, subscribers := 0 }

/-- Modelled from the spec: external `ht_core::command::seqs_to_bytes` encoder
(spec §4.1: encoding depends on the cursor-key application mode); modelled as
an abstract executable encoding. -/
def seqs_to_bytes (seqs : List InputSeq) (appMode : Bool) : String :=
  (if appMode then "app:" else "normal:") ++ String.join (seqs.map (fun s => s.key))

/-- One ready arm of the actor's `tokio::select!`: data or closure on the PTY
output channel, a command or closure on the command queue, or a viewer
connection or closure on the clients channel. -/
inductive ActorEvent where
  | outputData (data : String)
  | outputClosed
  | cmd (c : SessionCommand)
  | cmdClosed
  | clientConnected
  | clientsClosed
deriving DecidableEq

/-- Why the actor's loop exited: the two `break` sites of the loop. -/
inductive ExitReason where
  | outputClosed
  | commandClosed
deriving DecidableEq

/-- Actor-local loop state: the owned terminal state and the `serving` flag. -/
structure ActorState where
  session : TermState
  serving : Bool
deriving DecidableEq

/-- Side effects of one actor iteration: raw bytes forwarded to the PTY input
channel, a snapshot delivered on a reply channel, a viewer accepted. -/
inductive ActorEffect where
  | forwardedInput (bytes : String)
  | repliedSnapshot (text : String)
  | acceptedClient
deriving DecidableEq

/-- Result of one actor iteration: keep looping with a new state, or exit. -/
inductive StepResult where
  | next (st : ActorState)
  | exit (reason : ExitReason)
deriving DecidableEq

/-- One iteration of the actor loop: dispatch on the ready event, mirroring
the `match` arms of the `tokio::select!` body. Input-forwarding failures are
logged and non-fatal; an abandoned snapshot reply channel is ignored — neither
changes the control flow, so the effect is emitted unconditionally. -/
def actorStep (st : ActorState) : ActorEvent → StepResult × List ActorEffect
  | .outputData data => (.next { st with session := st.session.output data }, [])
  | .outputClosed => (.exit .outputClosed, [])
  | .cmd (.Input seqs) =>
    (.next st, [.forwardedInput (seqs_to_bytes seqs st.session.cursorKeyAppMode)])
  | .cmd .Snapshot => (.next st, [.repliedSnapshot st.session.text])
  | .cmd (.Resize cols rows) =>
    (.next { st with session := st.session.resize cols rows }, [])
  | .cmdClosed => (.exit .commandClosed, [])
  | .clientConnected =>
    (.next { st with session := { st.session with subscribers := st.session.subscribers + 1 } },
     [.acceptedClient])
  | .clientsClosed => (.next { st with serving := false }, [])

/-- Outcome of running the actor over a finite trace of ready events: it
exited the loop for the recorded reason, or it is still looping (all delivered
events consumed, awaiting more). -/
inductive RunResult where
  | exited (reason : ExitReason)
  | looping (st : ActorState)
deriving DecidableEq

/-- Run the actor loop over a finite trace of ready events. -/
def runActor (st : ActorState) : List ActorEvent → RunResult
  | [] => .looping st
  | e :: rest =>
    match (actorStep st e).1 with
    | .exit r => .exited r
    | .next st2 => runActor st2 rest

/-! ### Session creation (session_manager.rs lines 46–227) -/

/-- `CreateSessionArgs` from mcp/types.rs: all three fields optional. -/
structure CreateSessionArgs where
  command : Option (List String)
  enableWebServer : Option Bool
  enableTunnel : Option Bool
deriving DecidableEq

/-- `CreateSessionResult` from mcp/types.rs, with its serde field renames as
the field names. -/
structure CreateSessionResult where
  sessionId : String
  message : String
  webServerEnabled : Bool
  webServerUrl : Option String
  tunnelEnabled : Bool
  tunnelUrl : Option String
deriving DecidableEq

/-- Environment oracles for one `create_session` call: the generated UUIDs and
timestamp, which ports `TcpListener::bind` would accept (the bind-then-release
race window is not modelled: the scan probe and the subsequent bind see the
same predicate), and the outcome of `tunnel_manager.create_simple_tunnel`
(the tunnel URL, or the error that is then only logged). -/
structure CreateEnv where
  sessionId : String
  internalId : Nat
  now : Nat
  bindable : Nat → Bool
  tunnelResult : Except String String

/-- The port scan loop body of `find_available_port`: try `count` consecutive
ports starting at `port`, returning the first that binds. -/
def scanPorts (bindable : Nat → Bool) : Nat → Nat → Option Nat
  | _, 0 => none
  | port, count + 1 => if bindable port then some port else scanPorts bindable (port + 1) count

/-- `SessionManager::find_available_port`: `for port in 3618..3999` — a Rust
half-open range, i.e. the 381 ports 3618,…,3998 — returning the first port
that `TcpListener::bind` accepts (the probe listener is dropped at once). -/
def find_available_port (bindable : Nat → Bool) : Except HtMcpError Nat :=
  match scanPorts bindable 3618 381 with
  | some port => .ok port
  | none => .error (.Internal "No available ports found")

/-- Result of a successful `create_session` call: the updated sessions map,
the serialized result, and whether `create_simple_tunnel` was invoked at all
(for stating that no tunnel is requested while the web server is off). -/
structure CreateOutcome where
  registry : Registry
  result : CreateSessionResult
  tunnelRequested : Bool

/-- `SessionManager::create_session`: defaults (`bash`, both flags false);
when the web server is enabled, scan for a port, bind it, and — only then, if
tunneling was requested — ask the tunnel supervisor for a tunnel, downgrading
its failure to a log line; register the session and return its metadata. The
PTY spawn and actor spawn are detached tasks, modelled separately by
`runActor`. -/
def create_session (reg : Registry) (args : CreateSessionArgs) (env : CreateEnv) :
    Except HtMcpError CreateOutcome :=
  let sessionId := env.sessionId
  let command := args.command.getD ["bash"]
  let enable_web_server := args.enableWebServer.getD false
  let enable_tunnel := args.enableTunnel.getD false
  let provisioned : Except HtMcpError (Option String × Option String × Bool) :=
    if enable_web_server then
      match find_available_port env.bindable with
      | .error e => .error e
      | .ok port =>
        if env.bindable port then
          let url := "http://127.0.0.1:" ++ toString port
          let tunnelOutcome : Option String × Bool :=
            if enable_tunnel then
              match env.tunnelResult with
              | .ok tunnelUrl => (some tunnelUrl, true)
              | .error _ => (none, true)
            else (none, false)
          .ok (some url, tunnelOutcome.1, tunnelOutcome.2)
        else
          .error (.Internal ("Failed to bind to port " ++ toString port))
    else
      .ok (none, none, false)
  match provisioned with
  | .error e => .error e
  | .ok (webServerUrl, tunnelUrl, tunnelRequested) =>
    let info : SessionInfo :=
      { id := sessionId, internal_id := env.internalId, created_at := env.now,
        web_server_url := webServerUrl, tunnel_url := tunnelUrl,
        is_alive := true, command := command }
    .ok { registry := insertSession reg sessionId info,
          result := { sessionId := sessionId,
                      message := "HT session created successfully",
                      webServerEnabled := enable_web_server,
                      webServerUrl := webServerUrl,
                      tunnelEnabled := enable_tunnel,
                      tunnelUrl := tunnelUrl },
          tunnelRequested := tunnelRequested }

/-! ### Tunnel URL extraction (cloudflare.rs lines 40–97)

The regex is `https://[a-zA-Z0-9-]+\.trycloudflare\.com` with Rust
leftmost-first `find` semantics. Because the literal after the greedy class
run starts with `.`, a character outside the class, only the maximal class
run can be followed by the literal: any shorter run would be followed by a
class character, not `.`. So a match at a position is: the scheme literal,
the maximal nonempty class run, then the suffix literal, and `find` returns
the match at the leftmost position where this succeeds. -/

/-- The character class `[a-zA-Z0-9-]` (ASCII, as in the regex). -/
def isHostChar (c : Char) : Bool :=
  (('a' ≤ c && c ≤ 'z') || ('A' ≤ c && c ≤ 'Z') || ('0' ≤ c && c ≤ '9') || c == '-')

/-- The literal scheme of the pattern. -/
def tunnelScheme : List Char := "https://".toList

/-- The literal hostname suffix of the pattern. -/
def tunnelSuffix : List Char := ".trycloudflare.com".toList

/-- Try to match the tunnel-URL pattern anchored at the head of `cs`,
returning the matched substring. -/
def matchTunnelAt (cs : List Char) : Option String :=
  if tunnelScheme.isPrefixOf cs then
    let rest := cs.drop tunnelScheme.length
    let run := rest.takeWhile isHostChar
    if run.isEmpty then none
    else if tunnelSuffix.isPrefixOf (rest.drop run.length) then
      some (String.mk (tunnelScheme ++ run ++ tunnelSuffix))
    else none
  else none

/-- Leftmost match: try each successive start position. -/
def findUrlAux : List Char → Option String
  | [] => none
  | c :: rest =>
    match matchTunnelAt (c :: rest) with
    | some url => some url
    | none => findUrlAux rest

/-- `url_regex.find(&line)` of `extract_tunnel_url`, as the matched text. -/
def find_url (line : String) : Option String := findUrlAux line.toList

/-- The hard cap on scanned lines (`const MAX_ATTEMPTS: u32 = 100`). -/
def MAX_ATTEMPTS : Nat := 100

/-- The overall URL-extraction deadline (`Duration::from_secs(30)`). -/
def tunnel_timeout_secs : Nat := 30

/-- How the diagnostic line stream ends, after its delivered lines: the
subprocess closes its stderr (EOF), or the 30-second deadline of `new_simple`
elapses while awaiting the next line. -/
inductive StreamEnd where
  | closed
  | deadline
deriving DecidableEq

/-- The subprocess's diagnostic stream, abstracted as the lines that arrive
before the deadline followed by how the wait ends. -/
structure DiagStream where
  lines : List String
  after : StreamEnd

/-- The `while let Some(line) = reader.next_line()` loop of
`extract_tunnel_url`, with the pending attempt count, composed with the
`timeout(30s, …)` wrapper of `new_simple`: each arriving line first bumps
`attempts` and is rejected outright past the cap, then is scanned for the
URL; an exhausted stream yields the EOF error or the deadline error. -/
def scanTunnelLines : List String → Nat → StreamEnd → Except HtMcpError String
  | [], _, .closed => .error (.Internal "Could not find tunnel URL in cloudflared output")
  | [], _, .deadline => .error (.Internal "Timeout waiting for tunnel URL after 30s")
  | line :: rest, attempts, fin =>
    if MAX_ATTEMPTS < attempts + 1 then
      .error (.Internal "Too many attempts to find tunnel URL")
    else
      match find_url line with
      | some url => .ok url
      | none => scanTunnelLines rest (attempts + 1) fin

/-- Tunnel URL extraction over a diagnostic stream (`extract_tunnel_url`
under the 30-second `timeout` of `new_simple`), starting with zero attempts. -/
def extract_tunnel_url (s : DiagStream) : Except HtMcpError String :=
  scanTunnelLines s.lines 0 s.after

/-- First URL match over a list of lines (specification-side helper for the
success case of extraction). -/
def firstUrlMatch : List String → Option String
  | [] => none
  | line :: rest =>
    match find_url line with
    | some url => some url
    | none => firstUrlMatch rest

/-! ### Tunnel supervisor (manager.rs) -/

/-- One owned `CloudflareTunnel`: its stored URL and port, the liveness its
`is_running` probe (`child.try_wait()`) currently reports, and — as history
needed only to state claims — the actual time it was created, which the
source does not store (the `TODO` comments in manager.rs). -/
structure TunnelProc where
  url : String
  local_port : Nat
  running : Bool
  created_at : Nat
deriving DecidableEq

/-- `TunnelInfo` from manager.rs. -/
structure TunnelInfo where
  id : String
  url : String
  local_port : Nat
  provider : String
  created_at : Nat
  is_active : Bool
deriving DecidableEq

/-- The supervisor's `tunnels: HashMap<String, Box<CloudflareTunnel>>`, as an
association list whose keys are unique. -/
abbrev TunnelMap := List (String × TunnelProc)

/-- `HashMap::get` on the tunnel map. -/
def lookupTunnel : TunnelMap → String → Option TunnelProc
  | [], _ => none
  | (k, v) :: rest, id => if k = id then some v else lookupTunnel rest id

/-- `HashMap::remove` on the tunnel map. -/
def removeTunnel : TunnelMap → String → TunnelMap
  | [], _ => []
  | (k, v) :: rest, id => if k = id then rest else (k, v) :: removeTunnel rest id

/-- `TunnelManager::get_tunnel` at query time `now`: rebuilds a `TunnelInfo`
from the stored tunnel, hard-coding `provider`, stamping `created_at` with
`SystemTime::now()` and `is_active` with `true` (the two `TODO` lines). -/
def get_tunnel (m : TunnelMap) (now : Nat) (tunnel_id : String) : Option TunnelInfo :=
  (lookupTunnel m tunnel_id).map fun t =>
    { id := tunnel_id, url := t.url, local_port := t.local_port,
      provider := "cloudflare", created_at := now, is_active := true }

/-- `TunnelManager::list_tunnels` at query time `now`. -/
def list_tunnels (m : TunnelMap) (now : Nat) : List TunnelInfo :=
  m.map fun e =>
    { id := e.1, url := e.2.url, local_port := e.2.local_port,
      provider := "cloudflare", created_at := now, is_active := true }

/-- `TunnelManager::health_check`: first collect the ids of all tunnels whose
`is_running` probe fails, then remove each collected id; no `stop` is invoked
on them. The second component is the trace of tunnel ids on which a graceful
`stop` was attempted (always empty here; contrast `stop_tunnel`). -/
def health_check (m : TunnelMap) : TunnelMap × List String :=
  let dead := (m.filter fun e => !e.2.running).map fun e => e.1
  (dead.foldl removeTunnel m, [])

/-- `TunnelManager::stop_tunnel`: removes the tunnel and attempts a graceful
stop on it (recorded in the trace), failing when the id is unknown. -/
def stop_tunnel (m : TunnelMap) (tunnel_id : String) :
    Except HtMcpError TunnelMap × List String :=
  match lookupTunnel m tunnel_id with
  | some _ => (.ok (removeTunnel m tunnel_id), [tunnel_id])
  | none => (.error (.Internal ("Tunnel not found: " ++ tunnel_id)), [])

/-- Sample live tunnel used by the concrete witnesses below. -/
def demoTunnelLive : TunnelProc :=
  { url := "https://live-1.trycloudflare.com", local_port := 3618,
    running := true, created_at := 5 }

/-- Sample dead tunnel (subprocess exited) used by the concrete witnesses
below; its actual creation time 6 differs from any later query time. -/
def demoTunnelDead : TunnelProc :=
  { url := "https://dead-1.trycloudflare.com", local_port := 3619,
    running := false, created_at := 6 }

/-! ## Theorems -/

/-- Any event other than the two channel closures keeps the actor looping. -/
theorem actorStep_not_exit (st : ActorState) (e : ActorEvent)
    (h1 : e ≠ ActorEvent.outputClosed) (h2 : e ≠ ActorEvent.cmdClosed) :
    ∃ st2, (actorStep st e).1 = StepResult.next st2 := by
  cases e with
  | outputData data => exact ⟨_, rfl⟩
  | outputClosed => exact absurd rfl h1
  | cmd c => cases c <;> exact ⟨_, rfl⟩
  | cmdClosed => exact absurd rfl h2
  | clientConnected => exact ⟨_, rfl⟩
  | clientsClosed => exact ⟨_, rfl⟩

/-- A trace that contains the command-channel closure and no output-channel
closure drives the actor out of its loop, with the command-closure reason. -/
theorem runActor_cmdClosed_exits (evs : List ActorEvent) :
    ∀ st : ActorState, ActorEvent.cmdClosed ∈ evs → ActorEvent.outputClosed ∉ evs →
      runActor st evs = RunResult.exited ExitReason.commandClosed := by
  induction evs with
  | nil => intro st h _; exact absurd h (List.not_mem_nil _)
  | cons e rest ih =>
    intro st hclosed hnoexit
    by_cases he : e = ActorEvent.cmdClosed
    · subst he; rfl
    · have hne : e ≠ ActorEvent.outputClosed := by
        intro h; exact hnoexit (h ▸ List.mem_cons_self _ _)
      obtain ⟨st2, hstep⟩ := actorStep_not_exit st e hne he
      have h1 : ActorEvent.cmdClosed ∈ rest := by
        rcases List.mem_cons.mp hclosed with h | h
        · exact absurd h.symm he
        · exact h
      have h2 : ActorEvent.outputClosed ∉ rest :=
        fun h => hnoexit (List.mem_cons_of_mem _ h)
      rw [runActor, hstep]
      exact ih st2 h1 h2

/-- C1: closing a session's command queue terminates its actor. For every
actor state and every finite trace of ready events that contains the
command-channel closure but no output-channel closure (the attached process
never exits), the loop exits, and it does so through the command-closure
break — a termination path distinct from output-channel closure. -/
theorem command_queue_close_terminates_actor (st : ActorState) (evs : List ActorEvent)
    (hclosed : ActorEvent.cmdClosed ∈ evs)
    (hnoexit : ActorEvent.outputClosed ∉ evs) :
    runActor st evs = RunResult.exited ExitReason.commandClosed ∧
    (actorStep st ActorEvent.cmdClosed).1 = StepResult.exit ExitReason.commandClosed ∧
    ExitReason.commandClosed ≠ ExitReason.outputClosed :=
  ⟨runActor_cmdClosed_exits evs st hclosed hnoexit, rfl, by simp⟩

/-- C1 witness: a concrete actor, fed output, a resize, then the command
channel closure, exits with the command-closure reason. -/
theorem command_queue_close_terminates_actor_witness :
    runActor { session := TermState.new 120 40, serving := true }
        [ActorEvent.outputData "hello", ActorEvent.cmd (.Resize 80 24),
         ActorEvent.cmdClosed, ActorEvent.outputData "late"] =
      RunResult.exited ExitReason.commandClosed ∧
    (actorStep { session := TermState.new 120 40, serving := true }
        ActorEvent.cmdClosed).1 = StepResult.exit ExitReason.commandClosed ∧
    ExitReason.commandClosed ≠ ExitReason.outputClosed :=
  command_queue_close_terminates_actor _ _ (by decide) (by decide)

/-- C2: each of `send_keys`, `take_snapshot`, `execute_command` and
`close_session` against an id absent from the registry fails with
`SessionNotFound` carrying that id, leaves the sessions map unchanged, and
enqueues nothing and sleeps nowhere (empty effect trace). -/
theorem unknown_session_id_fails_without_side_effects (reg : Registry) (sid : String)
    (keys : List String) (cmd : String) (o1 o2 o3 o4 o5 : Bool) (r1 r2 : ReplyOutcome)
    (h : lookupSession reg sid = none) :
    send_keys reg sid keys o1 = (.error (.SessionNotFound sid), reg, []) ∧
    take_snapshot reg sid o2 r1 = (.error (.SessionNotFound sid), reg, []) ∧
    execute_command reg sid cmd o3 o4 o5 r2 = (.error (.SessionNotFound sid), reg, []) ∧
    close_session reg sid = (.error (.SessionNotFound sid), reg) := by
  refine ⟨?_, ?_, ?_, ?_⟩ <;>
    simp [send_keys, take_snapshot, execute_command, close_session, h]

/-- C2 witness: the four operations against an empty registry. -/
theorem unknown_session_id_fails_without_side_effects_witness :
    send_keys [] "missing" ["ls"] true =
      (.error (.SessionNotFound "missing"), [], []) ∧
    take_snapshot [] "missing" true (.value "txt") =
      (.error (.SessionNotFound "missing"), [], []) ∧
    execute_command [] "missing" "echo hi" true true true (.value "txt") =
      (.error (.SessionNotFound "missing"), [], []) ∧
    close_session [] "missing" = (.error (.SessionNotFound "missing"), []) :=
  unknown_session_id_fails_without_side_effects [] "missing" ["ls"] "echo hi"
    true true true true true (.value "txt") (.value "txt") rfl

/-- A successful port scan returns a bindable port. -/
theorem scanPorts_some_bindable (bindable : Nat → Bool) :
    ∀ count start port, scanPorts bindable start count = some port →
      bindable port = true := by
  intro count
  induction count with
  | zero => intro start port h; simp [scanPorts] at h
  | succ n ih =>
    intro start port h
    by_cases hb : bindable start
    · rw [scanPorts, if_pos hb] at h
      cases h
      exact hb
    · rw [scanPorts, if_neg hb] at h
      exact ih _ _ h

/-- Full characterization of the sequential port scan: a returned port is the
first bindable one in the window, and the scan returns nothing exactly when
no port of the window binds. -/
theorem scanPorts_characterization (bindable : Nat → Bool) :
    ∀ count start,
      match scanPorts bindable start count with
      | some port =>
          start ≤ port ∧ port < start + count ∧ bindable port = true ∧
          ∀ q, start ≤ q → q < port → bindable q = false
      | none => ∀ q, start ≤ q → q < start + count → bindable q = false := by
  intro count
  induction count with
  | zero =>
    intro start
    simp only [scanPorts]
    intro q h1 h2
    omega
  | succ n ih =>
    intro start
    rw [scanPorts]
    by_cases hb : bindable start
    · rw [if_pos hb]
      exact ⟨le_refl start, by omega, hb,
        fun q h1 h2 => absurd (lt_of_le_of_lt h1 h2) (lt_irrefl start)⟩
    · rw [if_neg hb]
      have hbf : bindable start = false := by
        cases hcase : bindable start with
        | false => rfl
        | true => exact absurd hcase hb
      have ihs := ih (start + 1)
      cases hs : scanPorts bindable (start + 1) n with
      | none =>
        rw [hs] at ihs
        simp only []
        intro q h1 h2
        rcases eq_or_lt_of_le h1 with heq | hlt
        · exact heq ▸ hbf
        · exact ihs q hlt (by omega)
      | some port =>
        rw [hs] at ihs
        obtain ⟨hp1, hp2, hp3, hp4⟩ := ihs
        refine ⟨by omega, by omega, hp3, fun q h1 h2 => ?_⟩
        rcases eq_or_lt_of_le h1 with heq | hlt
        · exact heq ▸ hbf
        · exact hp4 q hlt h2

set_option maxRecDepth 4096 in
/-- C4 counterexample: with every port taken except 3999 — which the claim
places inside the scanned range — allocation fails instead of returning 3999,
because the `for port in 3618..3999` loop never probes 3999. -/
theorem find_available_port_misses_3999 :
    find_available_port (fun p => p == 3999) =
      .error (.Internal "No available ports found") ∧
    (fun p => p == 3999) 3999 = true := ⟨rfl, rfl⟩

/-- C4 (amended): port allocation scans 3618 through 3998 — the upper bound
3999 of the half-open range is never probed — sequentially from the low end,
returns the first bindable port of that window, and fails exactly when every
port in 3618–3998 is taken (even if 3999 is free). -/
theorem find_available_port_first_of_range (bindable : Nat → Bool) :
    match find_available_port bindable with
    | .ok port =>
        3618 ≤ port ∧ port ≤ 3998 ∧ bindable port = true ∧
        ∀ q, 3618 ≤ q → q < port → bindable q = false
    | .error e =>
        e = .Internal "No available ports found" ∧
        ∀ q, 3618 ≤ q → q ≤ 3998 → bindable q = false := by
  have h := scanPorts_characterization bindable 381 3618
  rw [find_available_port]
  cases hs : scanPorts bindable 3618 381 with
  | some port =>
    rw [hs] at h
    obtain ⟨h1, h2, h3, h4⟩ := h
    exact ⟨h1, by omega, h3, h4⟩
  | none =>
    rw [hs] at h
    exact ⟨rfl, fun q hq1 hq2 => h q hq1 (by omega)⟩

set_option maxRecDepth 4096 in
/-- C4 amended witness: with every port up to 3998 taken and 3999 free, the
scan reports that all of 3618–3998 are unavailable and fails. -/
theorem find_available_port_first_of_range_witness :
    HtMcpError.Internal "No available ports found" =
        HtMcpError.Internal "No available ports found" ∧
    ∀ q, 3618 ≤ q → q ≤ 3998 → (fun p => decide (3999 ≤ p)) q = false :=
  find_available_port_first_of_range (fun p => decide (3999 ≤ p))

/-- C5: with the web server disabled, session creation succeeds with the
generated session id, `webServerEnabled = false`, `webServerUrl = null` and
`tunnelUrl = null`; the tunnel supervisor is never asked for a tunnel even
when `enableTunnel` is requested, and `tunnelEnabled` in the result echoes
the requested flag. -/
theorem create_session_web_disabled (reg : Registry) (args : CreateSessionArgs)
    (env : CreateEnv) (h : args.enableWebServer.getD false = false) :
    ∃ outcome, create_session reg args env = .ok outcome ∧
      outcome.result.sessionId = env.sessionId ∧
      outcome.result.webServerEnabled = false ∧
      outcome.result.webServerUrl = none ∧
      outcome.result.tunnelUrl = none ∧
      outcome.result.tunnelEnabled = args.enableTunnel.getD false ∧
      outcome.tunnelRequested = false := by
  refine ⟨{ registry := insertSession reg env.sessionId
              { id := env.sessionId, internal_id := env.internalId,
                created_at := env.now, web_server_url := none,
                tunnel_url := none, is_alive := true,
                command := args.command.getD ["bash"] },
            result := { sessionId := env.sessionId,
                        message := "HT session created successfully",
                        webServerEnabled := false, webServerUrl := none,
                        tunnelEnabled := args.enableTunnel.getD false,
                        tunnelUrl := none },
            tunnelRequested := false }, ?_, rfl, rfl, rfl, rfl, rfl, rfl⟩
  simp [create_session, h]

/-- C5 witness: web server disabled while a tunnel is requested. -/
theorem create_session_web_disabled_witness :
    ∃ outcome,
      create_session []
          { command := some ["bash"], enableWebServer := some false,
            enableTunnel := some true }
          { sessionId := "sid-1", internalId := 7, now := 42,
            bindable := fun _ => false, tunnelResult := .ok "unused" } = .ok outcome ∧
      outcome.result.sessionId = "sid-1" ∧
      outcome.result.webServerEnabled = false ∧
      outcome.result.webServerUrl = none ∧
      outcome.result.tunnelUrl = none ∧
      outcome.result.tunnelEnabled = (some true).getD false ∧
      outcome.tunnelRequested = false :=
  create_session_web_disabled [] _ _ rfl

/-- A successful `find_available_port` pins its port as bindable. -/
theorem find_available_port_ok_bindable (bindable : Nat → Bool) (port : Nat)
    (h : find_available_port bindable = .ok port) : bindable port = true := by
  rw [find_available_port] at h
  cases hs : scanPorts bindable 3618 381 with
  | none => rw [hs] at h; exact absurd h (by simp)
  | some p =>
    rw [hs] at h
    simp only [Except.ok.injEq] at h
    subst h
    exact scanPorts_some_bindable bindable 381 3618 p hs

/-- C6: with web server and tunnel both enabled, a failing tunnel creation is
non-fatal: provided a port binds, `create_session` still succeeds, the
session is registered in the sessions map, the tunnel supervisor was indeed
asked (and its failure only logged), and the result carries `tunnelUrl =
null` alongside the web server URL. -/
theorem create_session_tunnel_failure_nonfatal (reg : Registry)
    (args : CreateSessionArgs) (env : CreateEnv) (err : String) (port : Nat)
    (hws : args.enableWebServer = some true)
    (ht : args.enableTunnel = some true)
    (htf : env.tunnelResult = .error err)
    (hport : find_available_port env.bindable = .ok port) :
    ∃ outcome, create_session reg args env = .ok outcome ∧
      outcome.result.tunnelUrl = none ∧
      outcome.result.tunnelEnabled = true ∧
      outcome.tunnelRequested = true ∧
      outcome.result.webServerUrl = some ("http://127.0.0.1:" ++ toString port) ∧
      lookupSession outcome.registry env.sessionId =
        some { id := env.sessionId, internal_id := env.internalId,
               created_at := env.now,
               web_server_url := some ("http://127.0.0.1:" ++ toString port),
               tunnel_url := none, is_alive := true,
               command := args.command.getD ["bash"] } := by
  have hbind := find_available_port_ok_bindable env.bindable port hport
  refine ⟨{ registry := insertSession reg env.sessionId
              { id := env.sessionId, internal_id := env.internalId,
                created_at := env.now,
                web_server_url := some ("http://127.0.0.1:" ++ toString port),
                tunnel_url := none, is_alive := true,
                command := args.command.getD ["bash"] },
            result := { sessionId := env.sessionId,
                        message := "HT session created successfully",
                        webServerEnabled := true,
                        webServerUrl := some ("http://127.0.0.1:" ++ toString port),
                        tunnelEnabled := true, tunnelUrl := none },
            tunnelRequested := true }, ?_, rfl, rfl, rfl, rfl, ?_⟩
  · simp [create_session, hws, ht, htf, hport, hbind]
  · simp [insertSession, lookupSession]

/-- C6 witness: only port 3618 binds, the tunnel supervisor fails. -/
theorem create_session_tunnel_failure_nonfatal_witness :
    ∃ outcome,
      create_session []
          { command := none, enableWebServer := some true,
            enableTunnel := some true }
          { sessionId := "sid-2", internalId := 9, now := 43,
            bindable := fun p => p == 3618, tunnelResult := .error "spawn failed" } =
        .ok outcome ∧
      outcome.result.tunnelUrl = none ∧
      outcome.result.tunnelEnabled = true ∧
      outcome.tunnelRequested = true ∧
      outcome.result.webServerUrl = some ("http://127.0.0.1:" ++ toString 3618) ∧
      lookupSession outcome.registry "sid-2" =
        some { id := "sid-2", internal_id := 9, created_at := 43,
               web_server_url := some ("http://127.0.0.1:" ++ toString 3618),
               tunnel_url := none, is_alive := true,
               command := (none : Option (List String)).getD ["bash"] } :=
  create_session_tunnel_failure_nonfatal [] _ _ "spawn failed" 3618
    rfl rfl rfl rfl

/-- C7: on a known session, `take_snapshot` enqueues exactly one `Snapshot`
command (whose single-use reply channel is the oracle) and awaits its reply
under the fixed 5-second deadline: an elapsed deadline yields the timeout
error, a dropped reply channel yields the internal receive error, and a
delivered value yields the payload with the session id and the snapshot
text; the sessions map is untouched in every case. -/
theorem take_snapshot_reply_semantics (reg : Registry) (sid : String)
    (info : SessionInfo) (h : lookupSession reg sid = some info) :
    snapshot_timeout_secs = 5 ∧
    take_snapshot reg sid true .timeout =
      (.error (.Internal "Snapshot request timed out"), reg,
       [.enqueue sid .Snapshot]) ∧
    take_snapshot reg sid true .dropped =
      (.error (.Internal "Failed to receive snapshot"), reg,
       [.enqueue sid .Snapshot]) ∧
    ∀ text, take_snapshot reg sid true (.value text) =
      (.ok (.obj [("sessionId", .str sid), ("snapshot", .str text)]), reg,
       [.enqueue sid .Snapshot]) := by
  refine ⟨rfl, ?_, ?_, fun text => ?_⟩ <;> simp [take_snapshot, h]

/-- C7 witness: a registry with one session. -/
theorem take_snapshot_reply_semantics_witness :
    snapshot_timeout_secs = 5 ∧
    take_snapshot [("s1", demoSession "s1" 1)] "s1" true .timeout =
      (.error (.Internal "Snapshot request timed out"),
       [("s1", demoSession "s1" 1)], [.enqueue "s1" .Snapshot]) ∧
    take_snapshot [("s1", demoSession "s1" 1)] "s1" true .dropped =
      (.error (.Internal "Failed to receive snapshot"),
       [("s1", demoSession "s1" 1)], [.enqueue "s1" .Snapshot]) ∧
    ∀ text, take_snapshot [("s1", demoSession "s1" 1)] "s1" true (.value text) =
      (.ok (.obj [("sessionId", .str "s1"), ("snapshot", .str text)]),
       [("s1", demoSession "s1" 1)], [.enqueue "s1" .Snapshot]) :=
  take_snapshot_reply_semantics _ "s1" _ rfl

/-- C9: on a known session, `execute_command` performs in order a `send_keys`
with the command text as a single key entry, a `send_keys` with the single
key `"Enter"`, the fixed 1-second settle delay, then a `take_snapshot`; when
all three sub-operations succeed it returns the payload with the command,
the session id and the snapshot text, and it returns a success exactly when
none of the three sub-operations fails. -/
theorem execute_command_composition (reg : Registry) (sid cmd : String)
    (info : SessionInfo) (h : lookupSession reg sid = some info) :
    (∀ text, execute_command reg sid cmd true true true (.value text) =
      (.ok (.obj [("command", .str cmd), ("sessionId", .str sid),
                  ("output", .str text)]),
       reg,
       [.enqueue sid (.Input [parse_key cmd]),
        .enqueue sid (.Input [parse_key "Enter"]),
        .sleep 1000, .enqueue sid .Snapshot])) ∧
    ∀ o1 o2 o3 r, ((execute_command reg sid cmd o1 o2 o3 r).1.isOk = true ↔
      o1 = true ∧ o2 = true ∧ o3 = true ∧ ∃ text, r = .value text) := by
  constructor
  · intro text
    simp [execute_command, send_keys, take_snapshot, h, jsonIndex, jsonIndexFields,
      settle_delay_ms]
  · intro o1 o2 o3 r
    cases o1 <;> cases o2 <;> cases o3 <;> cases r <;>
      simp [execute_command, send_keys, take_snapshot, h, Except.isOk, Except.toBool]

/-- C9 witness: a concrete session running `echo hi`. -/
theorem execute_command_composition_witness :
    (∀ text, execute_command [("s2", demoSession "s2" 2)] "s2" "echo hi"
        true true true (.value text) =
      (.ok (.obj [("command", .str "echo hi"), ("sessionId", .str "s2"),
                  ("output", .str text)]),
       [("s2", demoSession "s2" 2)],
       [.enqueue "s2" (.Input [parse_key "echo hi"]),
        .enqueue "s2" (.Input [parse_key "Enter"]),
        .sleep 1000, .enqueue "s2" .Snapshot])) ∧
    ∀ o1 o2 o3 r,
      ((execute_command [("s2", demoSession "s2" 2)] "s2" "echo hi"
          o1 o2 o3 r).1.isOk = true ↔
        o1 = true ∧ o2 = true ∧ o3 = true ∧ ∃ text, r = .value text) :=
  execute_command_composition _ "s2" "echo hi" _ rfl

/-- Scanning succeeds with a URL exactly when the remaining attempt budget
covers a line whose scan finds that URL first. -/
theorem scanTunnelLines_ok_iff (fin : StreamEnd) (url : String) :
    ∀ (lines : List String) (attempts : Nat), attempts ≤ MAX_ATTEMPTS →
      (scanTunnelLines lines attempts fin = .ok url ↔
       firstUrlMatch (lines.take (MAX_ATTEMPTS - attempts)) = some url) := by
  intro lines
  induction lines with
  | nil =>
    intro attempts _
    cases fin <;> simp [scanTunnelLines, firstUrlMatch]
  | cons line rest ih =>
    intro attempts ha
    by_cases hcap : MAX_ATTEMPTS < attempts + 1
    · have hz : MAX_ATTEMPTS - attempts = 0 := by omega
      rw [scanTunnelLines, if_pos hcap, hz]
      simp [firstUrlMatch]
    · have h1 : attempts + 1 ≤ MAX_ATTEMPTS := by omega
      have h2 : MAX_ATTEMPTS - attempts = (MAX_ATTEMPTS - (attempts + 1)) + 1 := by
        omega
      rw [scanTunnelLines, if_neg hcap, h2, List.take_succ_cons]
      cases hf : find_url line with
      | some u => simp [firstUrlMatch, hf]
      | none => simp [firstUrlMatch, hf, ih (attempts + 1) h1]

/-- With no URL in the lines the attempt budget covers, scanning fails with
the cap error when a line beyond the budget arrives, and otherwise with the
error matching how the stream ends. -/
theorem scanTunnelLines_no_match (fin : StreamEnd) :
    ∀ (lines : List String) (attempts : Nat), attempts ≤ MAX_ATTEMPTS →
      (∀ l ∈ lines.take (MAX_ATTEMPTS - attempts), find_url l = none) →
      scanTunnelLines lines attempts fin =
        if MAX_ATTEMPTS - attempts < lines.length then
          .error (.Internal "Too many attempts to find tunnel URL")
        else
          match fin with
          | .closed => .error (.Internal "Could not find tunnel URL in cloudflared output")
          | .deadline => .error (.Internal "Timeout waiting for tunnel URL after 30s") := by
  intro lines
  induction lines with
  | nil =>
    intro attempts ha _
    cases fin <;> simp [scanTunnelLines]
  | cons line rest ih =>
    intro attempts ha h
    by_cases hcap : MAX_ATTEMPTS < attempts + 1
    · have hz : MAX_ATTEMPTS - attempts = 0 := by omega
      rw [scanTunnelLines, if_pos hcap, if_pos (by simp [hz])]
    · have h1 : attempts + 1 ≤ MAX_ATTEMPTS := by omega
      have h2 : MAX_ATTEMPTS - attempts = (MAX_ATTEMPTS - (attempts + 1)) + 1 := by
        omega
      have hline : find_url line = none := by
        refine h line ?_
        rw [h2, List.take_succ_cons]
        exact List.mem_cons_self _ _
      have hrest : ∀ l ∈ rest.take (MAX_ATTEMPTS - (attempts + 1)), find_url l = none := by
        intro l hl
        refine h l ?_
        rw [h2, List.take_succ_cons]
        exact List.mem_cons_of_mem _ hl
      rw [scanTunnelLines, if_neg hcap, hline, ih (attempts + 1) h1 hrest]
      by_cases hc : MAX_ATTEMPTS - (attempts + 1) < rest.length
      · rw [if_pos hc, if_pos (by simp [List.length_cons]; omega)]
      · rw [if_neg hc, if_neg (by simp [List.length_cons]; omega)]

/-- C3: tunnel URL extraction succeeds with the matched URL exactly when some
line among the first 100 lines arriving within the 30-second deadline matches
the trycloudflare pattern (the URL returned being the first such match);
otherwise it fails with the cap error when more than 100 lines arrive, with
the could-not-find error when the stream closes within the cap, and with the
timeout error when the deadline elapses within the cap. -/
theorem extract_tunnel_url_characterization (s : DiagStream) :
    (∀ url, extract_tunnel_url s = .ok url ↔
        firstUrlMatch (s.lines.take MAX_ATTEMPTS) = some url) ∧
    ((∀ l ∈ s.lines.take MAX_ATTEMPTS, find_url l = none) →
      extract_tunnel_url s =
        if MAX_ATTEMPTS < s.lines.length then
          .error (.Internal "Too many attempts to find tunnel URL")
        else
          match s.after with
          | .closed => .error (.Internal "Could not find tunnel URL in cloudflared output")
          | .deadline => .error (.Internal "Timeout waiting for tunnel URL after 30s")) ∧
    MAX_ATTEMPTS = 100 ∧ tunnel_timeout_secs = 30 := by
  refine ⟨fun url => ?_, fun h => ?_, rfl, rfl⟩
  · simpa using scanTunnelLines_ok_iff s.after url s.lines 0 (Nat.zero_le _)
  · simpa using scanTunnelLines_no_match s.after s.lines 0 (Nat.zero_le _)
      (by simpa using h)

/-- C3 witness: a stream carrying the documented quick-tunnel line yields
exactly that URL. -/
theorem extract_tunnel_url_characterization_witness :
    extract_tunnel_url
        { lines := ["2024-01-01T12:00:00Z INF Requesting new quick Tunnel on trycloudflare.com...",
                    "2024-01-01T12:00:00Z INF |  Your quick tunnel URL: https://abc123-def456.trycloudflare.com  |"],
          after := .closed } =
      .ok "https://abc123-def456.trycloudflare.com" :=
  ((extract_tunnel_url_characterization
      { lines := ["2024-01-01T12:00:00Z INF Requesting new quick Tunnel on trycloudflare.com...",
                  "2024-01-01T12:00:00Z INF |  Your quick tunnel URL: https://abc123-def456.trycloudflare.com  |"],
        after := .closed }).1
    "https://abc123-def456.trycloudflare.com").mpr (by rfl)

/-- A tunnel lookup fails exactly when the key is absent. -/
theorem lookupTunnel_eq_none_iff (m : TunnelMap) (id : String) :
    lookupTunnel m id = none ↔ id ∉ m.map Prod.fst := by
  induction m with
  | nil => simp [lookupTunnel]
  | cons e rest ih =>
    obtain ⟨k, v⟩ := e
    by_cases hk : k = id
    · subst hk; simp [lookupTunnel]
    · rw [lookupTunnel, if_neg hk, ih]
      simp only [List.map_cons, List.mem_cons]
      constructor
      · intro h
        rintro (h1 | h1)
        · exact hk h1.symm
        · exact h h1
      · intro h h1
        exact h (Or.inr h1)

/-- Removing one key does not change the lookup of another. -/
theorem lookupTunnel_removeTunnel_other (m : TunnelMap) (id id2 : String)
    (hne : id ≠ id2) : lookupTunnel (removeTunnel m id2) id = lookupTunnel m id := by
  induction m with
  | nil => simp [removeTunnel]
  | cons e rest ih =>
    obtain ⟨k, v⟩ := e
    by_cases hk : k = id2
    · subst hk
      rw [removeTunnel, if_pos rfl, lookupTunnel, if_neg (fun h => hne h.symm)]
    · rw [removeTunnel, if_neg hk]
      by_cases hk2 : k = id
      · subst hk2; simp [lookupTunnel]
      · simp [lookupTunnel, hk2, ih]

/-- Removal only drops entries: membership lifts back to the original map. -/
theorem mem_removeTunnel (m : TunnelMap) (id : String) (e : String × TunnelProc)
    (h : e ∈ removeTunnel m id) : e ∈ m := by
  induction m with
  | nil => simp [removeTunnel] at h
  | cons f tail ih =>
    obtain ⟨k2, v2⟩ := f
    by_cases hk2 : k2 = id
    · rw [removeTunnel, if_pos hk2] at h
      exact List.mem_cons_of_mem _ h
    · rw [removeTunnel, if_neg hk2] at h
      rcases List.mem_cons.mp h with h1 | h1
      · exact h1 ▸ List.mem_cons_self _ _
      · exact List.mem_cons_of_mem _ (ih h1)

/-- Keys stay unique after a removal. -/
theorem removeTunnel_nodup (m : TunnelMap) (id : String)
    (hnd : (m.map Prod.fst).Nodup) : ((removeTunnel m id).map Prod.fst).Nodup := by
  induction m with
  | nil => simp [removeTunnel]
  | cons e rest ih =>
    obtain ⟨k, v⟩ := e
    simp only [List.map_cons, List.nodup_cons] at hnd
    by_cases hk : k = id
    · rw [removeTunnel, if_pos hk]; exact hnd.2
    · rw [removeTunnel, if_neg hk]
      refine List.nodup_cons.mpr ⟨?_, ih hnd.2⟩
      intro hmem
      obtain ⟨e2, hmem2, hfst⟩ := List.mem_map.mp hmem
      exact hnd.1 (List.mem_map.mpr ⟨e2, mem_removeTunnel rest id e2 hmem2, hfst⟩)

/-- Over unique keys, removing a key empties its lookup. -/
theorem lookupTunnel_removeTunnel_self (m : TunnelMap) (id : String)
    (hnd : (m.map Prod.fst).Nodup) : lookupTunnel (removeTunnel m id) id = none := by
  induction m with
  | nil => simp [removeTunnel, lookupTunnel]
  | cons e rest ih =>
    obtain ⟨k, v⟩ := e
    simp only [List.map_cons, List.nodup_cons] at hnd
    by_cases hk : k = id
    · rw [removeTunnel, if_pos hk]
      subst hk
      exact (lookupTunnel_eq_none_iff rest k).mpr hnd.1
    · rw [removeTunnel, if_neg hk, lookupTunnel, if_neg hk]
      exact ih hnd.2

/-- Lookup after removing a whole list of keys, over unique keys. -/
theorem lookupTunnel_foldl_removeTunnel (dead : List String) :
    ∀ (m : TunnelMap), (m.map Prod.fst).Nodup → ∀ id,
      lookupTunnel (dead.foldl removeTunnel m) id =
        if id ∈ dead then none else lookupTunnel m id := by
  induction dead with
  | nil => intro m _ id; simp
  | cons d rest ih =>
    intro m hnd id
    rw [List.foldl_cons, ih (removeTunnel m d) (removeTunnel_nodup m d hnd) id]
    by_cases hmem : id ∈ rest
    · rw [if_pos hmem, if_pos (List.mem_cons_of_mem _ hmem)]
    · rw [if_neg hmem]
      by_cases hd : id = d
      · subst hd
        rw [if_pos (List.mem_cons_self _ _)]
        exact lookupTunnel_removeTunnel_self m id hnd
      · rw [if_neg (by simp [hd, hmem])]
        exact lookupTunnel_removeTunnel_other m id d hd

/-- Over unique keys, a lookup hit is exactly membership. -/
theorem lookupTunnel_some_iff_mem (m : TunnelMap) (id : String) (t : TunnelProc)
    (hnd : (m.map Prod.fst).Nodup) :
    lookupTunnel m id = some t ↔ (id, t) ∈ m := by
  induction m with
  | nil => simp [lookupTunnel]
  | cons e rest ih =>
    obtain ⟨k, v⟩ := e
    simp only [List.map_cons, List.nodup_cons] at hnd
    by_cases hk : k = id
    · subst hk
      rw [lookupTunnel, if_pos rfl]
      constructor
      · intro h
        exact Option.some.inj h ▸ List.mem_cons_self _ _
      · intro h
        rcases List.mem_cons.mp h with h1 | h1
        · exact congrArg (fun x => some x.2) h1.symm
        · exact absurd (List.mem_map.mpr ⟨(k, t), h1, rfl⟩) hnd.1
    · rw [lookupTunnel, if_neg hk, ih hnd.2]
      constructor
      · exact fun h => List.mem_cons_of_mem _ h
      · intro h
        rcases List.mem_cons.mp h with h1 | h1
        · exact absurd (congrArg Prod.fst h1).symm hk
        · exact h1

/-- C8: after `health_check`, an entry remains, unmodified, exactly when it
was present before and its liveness probe reports it still running — dead
tunnels are evicted, live ones untouched — and no graceful stop is attempted
on anything (empty stop trace). -/
theorem health_check_evicts_exactly_dead (m : TunnelMap)
    (hnd : (m.map Prod.fst).Nodup) :
    (∀ id t, lookupTunnel (health_check m).1 id = some t ↔
        lookupTunnel m id = some t ∧ t.running = true) ∧
    (health_check m).2 = [] := by
  refine ⟨fun id t => ?_, rfl⟩
  have hfold := lookupTunnel_foldl_removeTunnel
    ((m.filter fun e => !e.2.running).map fun e => e.1) m hnd id
  have hdead : id ∈ (m.filter fun e => !e.2.running).map (fun e => e.1) ↔
      ∃ t0, (id, t0) ∈ m ∧ t0.running = false := by
    simp only [List.mem_map, List.mem_filter]
    constructor
    · rintro ⟨⟨a, t0⟩, ⟨hmem, hrun⟩, rfl⟩
      exact ⟨t0, hmem, by simpa using hrun⟩
    · rintro ⟨t0, hmem, hrun⟩
      exact ⟨(id, t0), ⟨hmem, by simp [hrun]⟩, rfl⟩
  show lookupTunnel
      (((m.filter fun e => !e.2.running).map (fun e => e.1)).foldl removeTunnel m) id
      = some t ↔ _
  rw [hfold]
  by_cases hm : id ∈ (m.filter fun e => !e.2.running).map (fun e => e.1)
  · rw [if_pos hm]
    obtain ⟨t0, hmem0, hrun0⟩ := hdead.mp hm
    constructor
    · intro h
      exact absurd h (by simp)
    · rintro ⟨hlook, hrun⟩
      have h1 := (lookupTunnel_some_iff_mem m id t0 hnd).mpr hmem0
      have heq : t = t0 := Option.some.inj (hlook.symm.trans h1)
      rw [heq] at hrun
      rw [hrun] at hrun0
      exact absurd hrun0 (by simp)
  · rw [if_neg hm]
    constructor
    · intro hlook
      refine ⟨hlook, ?_⟩
      by_contra hrun
      have hrunf : t.running = false := by
        cases hcase : t.running with
        | false => rfl
        | true => exact absurd hcase hrun
      exact hm (hdead.mpr ⟨t, (lookupTunnel_some_iff_mem m id t hnd).mp hlook, hrunf⟩)
    · exact fun h => h.1

/-- C8 witness: one live and one dead tunnel; only the dead one is evicted
and no stop is attempted. -/
theorem health_check_evicts_exactly_dead_witness :
    (∀ id t,
      lookupTunnel (health_check [("a", demoTunnelLive), ("b", demoTunnelDead)]).1 id
          = some t ↔
        lookupTunnel [("a", demoTunnelLive), ("b", demoTunnelDead)] id = some t ∧
        t.running = true) ∧
    (health_check [("a", demoTunnelLive), ("b", demoTunnelDead)]).2 = [] :=
  health_check_evicts_exactly_dead _ (by decide)

/-- C10: the metadata snapshots `get_tunnel` and `list_tunnels` report, for
every stored tunnel and any query time, `is_active = true` and
`provider = "cloudflare"` regardless of whether the subprocess still runs,
and stamp `created_at` with the query time rather than the tunnel's actual
creation time. -/
theorem tunnel_metadata_snapshot (m : TunnelMap) (now : Nat) (tunnel_id : String)
    (t : TunnelProc) (h : lookupTunnel m tunnel_id = some t) :
    get_tunnel m now tunnel_id =
      some { id := tunnel_id, url := t.url, local_port := t.local_port,
             provider := "cloudflare", created_at := now, is_active := true } ∧
    ∀ info ∈ list_tunnels m now,
      info.is_active = true ∧ info.provider = "cloudflare" ∧ info.created_at = now := by
  constructor
  · simp [get_tunnel, h]
  · intro info hinfo
    obtain ⟨e, -, rfl⟩ := List.mem_map.mp hinfo
    exact ⟨rfl, rfl, rfl⟩

/-- C10 witness: a dead tunnel created at time 6, queried at time 99, is
still reported active, cloudflare-provided, and created at 99. -/
theorem tunnel_metadata_snapshot_witness :
    get_tunnel [("x", demoTunnelDead)] 99 "x" =
      some { id := "x", url := demoTunnelDead.url,
             local_port := demoTunnelDead.local_port,
             provider := "cloudflare", created_at := 99, is_active := true } ∧
    ∀ info ∈ list_tunnels [("x", demoTunnelDead)] 99,
      info.is_active = true ∧ info.provider = "cloudflare" ∧ info.created_at = 99 :=
  tunnel_metadata_snapshot _ 99 "x" _ rfl

end HtMcp
